import Mathlib

/-!
Shallow embedding of `arcgis_api_for_python/create_assignments_from_csv.py`
(workforce-scripts repository).

The script reads field-work assignment rows from a CSV file, turns each row
into an assignment candidate (a feature: geometry plus an attribute
dictionary), resolves the acting user's dispatcher identity and each row's
worker username against remote collections, validates the batch against
reference sets, bulk-inserts the batch, and writes the returned object ids
back onto the candidates.

Modelling conventions:
- Python dictionaries are association lists in insertion order; assigning a
  fresh key appends, assigning an existing key overwrites in place.
- Fallible Python code (KeyError on a missing dictionary key, ValueError from
  `float()` / `int()` / date parsing, IndexError from list indexing) is
  modelled with `Except PyError`.
- Python floats are modelled as exact signed decimal literals
  (sign, mantissa, decimal exponent); the pipeline never computes with them,
  it only stores them.  The numeral grammar modelled for `float()` / `int()`
  covers the sign-digits-fraction forms; exponent, underscore, inf and nan
  spellings are not modelled.
- The remote service (dispatcher/worker lookups, domain coded values, the
  bulk-insert response) and the filesystem (`os.path.isfile`) are modelled as
  explicit inputs to the orchestrator, snapshotted once per run exactly as the
  script queries them once per run.
- Truthiness of an optional string (an argparse value or a dictionary entry)
  is `strOptTruthy`: present and non-empty.
-/

namespace WorkforceCSV

/-- Exceptions the script can raise: `ValueError` from `float()` / `int()` /
`strptime` carries only the offending literal; `KeyError` carries the missing
key; `IndexError` carries no payload. -/
inductive PyError where
  | valueError (badValue : String)
  | keyError (key : String)
  | indexError
deriving DecidableEq, Repr

/-- A value stored in an attribute dictionary: Python int, str, or None. -/
inductive AttrValue where
  | int (i : Int)
  | str (s : String)
  | null
deriving DecidableEq, Repr

/-- An attribute dictionary in insertion order. -/
abbrev Attrs := List (String × AttrValue)

/-- Dictionary lookup (`d[k]` / `k in d` support). -/
def getAttr : Attrs → String → Option AttrValue
  | [], _ => none
  | (k, v) :: rest, key => if k = key then some v else getAttr rest key

/-- Dictionary assignment `d[k] = v`: overwrite in place if the key exists,
append otherwise. -/
def setAttr : Attrs → String → AttrValue → Attrs
  | [], key, v => [(key, v)]
  | (k, w) :: rest, key, v =>
      if k = key then (k, v) :: rest else (k, w) :: setAttr rest key v

/-- A CSV row as produced by `csv.DictReader`: column name to string value. -/
abbrev Row := List (String × String)

/-- Row lookup. -/
def lookupStr : Row → String → Option String
  | [], _ => none
  | (k, v) :: rest, key => if k = key then some v else lookupStr rest key

/-- Row access `row[field]`; a missing column raises `KeyError`. -/
def getCol (row : Row) (key : String) : Except PyError String :=
  match lookupStr row key with
  | some v => Except.ok v
  | none => Except.error (PyError.keyError key)

/-- Python truthiness of an optional string: present and non-empty. -/
def strOptTruthy : Option String → Bool
  | some s => s != ""
  | none => false

/-- An exact signed decimal literal standing for a parsed Python float:
`(-1)^neg * mantissa / 10^exp`. -/
structure PyFloat where
  neg : Bool
  mantissa : Nat
  exp : Nat
deriving DecidableEq, Repr

/-- Rational meaning of a stored float literal. -/
def PyFloat.toRat (f : PyFloat) : ℚ :=
  (if f.neg then -1 else 1) * (f.mantissa : ℚ) / (10 : ℚ) ^ f.exp

def digitVal (c : Char) : Nat := c.toNat - 48

def digitsVal (cs : List Char) : Nat := cs.foldl (fun a c => a * 10 + digitVal c) 0

def allDigits (cs : List Char) : Bool := cs.all Char.isDigit

/-- Strip one leading sign character. -/
def splitSign : List Char → Bool × List Char
  | '-' :: rest => (true, rest)
  | '+' :: rest => (false, rest)
  | cs => (false, cs)

/-- Model of Python `float(s)` on the sign-digits-fraction numeral forms;
any other string fails (a `ValueError` at the call site). -/
def pyParseFloat (s : String) : Option PyFloat :=
  let p := splitSign s.data
  let body := p.2
  let ip := body.takeWhile (fun c => c != '.')
  let rest := body.drop ip.length
  match rest with
  | [] =>
      if allDigits ip && !ip.isEmpty then some ⟨p.1, digitsVal ip, 0⟩ else none
  | _ :: frac =>
      if allDigits ip && allDigits frac && (!ip.isEmpty || !frac.isEmpty) then
        some ⟨p.1, digitsVal ip * 10 ^ frac.length + digitsVal frac, frac.length⟩
      else none

/-- Model of Python `int(s)`: optional sign then digits. -/
def pyParseInt (s : String) : Option Int :=
  let p := splitSign s.data
  let body := p.2
  if allDigits body && !body.isEmpty then
    some ((if p.1 then -1 else 1) * (digitsVal body : Int))
  else none

/-- Lift `float(s)` into `Except`: failure raises `ValueError` naming the
offending literal. -/
def floatE (s : String) : Except PyError PyFloat :=
  match pyParseFloat s with
  | some v => Except.ok v
  | none => Except.error (PyError.valueError s)

/-- Lift `int(s)` into `Except`. -/
def intE (s : String) : Except PyError Int :=
  match pyParseInt s with
  | some v => Except.ok v
  | none => Except.error (PyError.valueError s)

/-- A naive calendar date-time as parsed by `strptime`. -/
structure DateTime where
  year : Int
  month : Nat
  day : Nat
  hour : Nat
  minute : Nat
  second : Nat
deriving DecidableEq, Repr

def isLeap (y : Int) : Bool := (y % 4 == 0 && y % 100 != 0) || y % 400 == 0

def daysInMonth (y : Int) (m : Nat) : Nat :=
  if m = 2 then (if isLeap y then 29 else 28)
  else if m = 4 ∨ m = 6 ∨ m = 9 ∨ m = 11 then 30
  else 31

def nextDate : Int × Nat × Nat → Int × Nat × Nat
  | (y, m, d) =>
    if d < daysInMonth y m then (y, m, d + 1)
    else if m < 12 then (y, m + 1, 1)
    else (y + 1, 1, 1)

def prevDate : Int × Nat × Nat → Int × Nat × Nat
  | (y, m, d) =>
    if 1 < d then (y, m, d - 1)
    else if 1 < m then (y, m - 1, daysInMonth y (m - 1))
    else (y - 1, 12, 31)

def iterDate (f : Int × Nat × Nat → Int × Nat × Nat) : Nat → Int × Nat × Nat → Int × Nat × Nat
  | 0, p => p
  | n + 1, p => iterDate f n (f p)

/-- Shift a calendar date by a (small) signed number of days. -/
def addDays (p : Int × Nat × Nat) (n : Int) : Int × Nat × Nat :=
  if 0 ≤ n then iterDate nextDate n.toNat p else iterDate prevDate (-n).toNat p

/-- Convert a wall-clock date-time carrying a fixed UTC offset (minutes east
of UTC) to UTC, with day rollover (`arrow .to('utc')` on a fixed-offset zone). -/
def toUTC (d : DateTime) (offMin : Int) : DateTime :=
  let total : Int := (d.hour : Int) * 3600 + (d.minute : Int) * 60 + (d.second : Int) - offMin * 60
  let p := addDays (d.year, d.month, d.day) (Int.fdiv total 86400)
  let sod : Nat := (Int.fmod total 86400).toNat
  { year := p.1, month := p.2.1, day := p.2.2,
    hour := sod / 3600, minute := (sod / 60) % 60, second := sod % 60 }

def pad2 (n : Nat) : String := if n < 10 then "0" ++ toString n else toString n

def formatYear (y : Int) : String :=
  let n := y.toNat
  if n < 10 then "000" ++ toString n
  else if n < 100 then "00" ++ toString n
  else if n < 1000 then "0" ++ toString n
  else toString n

/-- `strftime("%m/%d/%Y %H:%M:%S")`. -/
def formatDateTime (d : DateTime) : String :=
  pad2 d.month ++ "/" ++ pad2 d.day ++ "/" ++ formatYear d.year ++ " " ++
  pad2 d.hour ++ ":" ++ pad2 d.minute ++ ":" ++ pad2 d.second

/-- The stored `dueDate` string: replace an exact-midnight wall-clock time by
23:59:59 of the same date (the code tests `second == 0 and hour == 0 and
minute == 0`), then convert to UTC and format. -/
def dueDateString (d : DateTime) (offMin : Int) : String :=
  formatDateTime (toUTC
    (if d.second = 0 ∧ d.hour = 0 ∧ d.minute = 0 then
       { d with hour := 23, minute := 59, second := 59 } else d) offMin)

/-- Split a character list at every occurrence of a separator character. -/
def splitOnChar (c : Char) : List Char → List (List Char)
  | [] => [[]]
  | a :: rest =>
    if a = c then [] :: splitOnChar c rest
    else
      match splitOnChar c rest with
      | [] => [[a]]
      | h :: t => (a :: h) :: t

def parseNatField (cs : List Char) : Option Nat :=
  if allDigits cs && !cs.isEmpty then some (digitsVal cs) else none

/-- Concrete date parser for the default format `%m/%d/%Y %H:%M:%S`, used to
instantiate the parser's `strptime` parameter on concrete inputs. -/
def parseDateUS (s : String) : Option DateTime :=
  match splitOnChar ' ' s.data with
  | [datePart, timePart] =>
    match splitOnChar '/' datePart, splitOnChar ':' timePart with
    | [ms, ds, ys], [hs, mis, ss] =>
      match parseNatField ms, parseNatField ds, parseNatField ys,
            parseNatField hs, parseNatField mis, parseNatField ss with
      | some mo, some da, some y, some h, some mi, some sec =>
          if 1 ≤ mo && mo ≤ 12 && 1 ≤ da && da ≤ 31 && h ≤ 23 && mi ≤ 59 && sec ≤ 61 then
            some ⟨(y : Int), mo, da, h, mi, sec⟩
          else none
      | _, _, _, _, _, _ => none
    | _, _ => none
  | _ => none

/-- A point geometry with spatial reference, exactly the dict the script
builds: `dict(x=float(...), y=float(...), spatialReference=dict(wkid=...))`. -/
structure Geometry where
  x : PyFloat
  y : PyFloat
  wkid : Int
deriving DecidableEq, Repr

/-- One assignment candidate: the feature (geometry + attributes) plus the
transient `workerUsername` / `attachmentFile` entries of the wrapping dict. -/
structure Assignment where
  geometry : Geometry
  attributes : Attrs
  workerUsername : Option String
  attachmentFile : Option String
deriving DecidableEq, Repr

/-- The column-to-field configuration handed to `get_assignments_from_csv`
(in the script the optional-field conditions read the same values through the
process-wide `args` object). -/
structure ParserConfig where
  xField : String
  yField : String
  assignmentTypeField : String
  locationField : String
  dispatcherIdField : Option String
  descriptionField : Option String
  priorityField : Option String
  workOrderIdField : Option String
  dueDateField : Option String
  wkid : Int
  attachmentFileField : Option String
  workerField : Option String
  tzOffsetMinutes : Int

/-- The four attributes every candidate starts with. -/
def baseAttrs (ty : Int) (loc : String) : Attrs :=
  [("assignmentType", AttrValue.int ty), ("location", AttrValue.str loc),
   ("status", AttrValue.int 0), ("assignmentRead", AttrValue.null)]

/-- Optional integer attribute: only materialised when the column mapping is
truthy; the value is `int(row[field])`. -/
def optIntAttr (field : Option String) (key : String) (row : Row) :
    Except PyError (Option (String × AttrValue)) :=
  if strOptTruthy field then do
    let s ← getCol row (field.getD "")
    let v ← intE s
    pure (some (key, AttrValue.int v))
  else pure none

/-- Optional string attribute, copied verbatim when the mapping is truthy. -/
def optStrAttr (field : Option String) (key : String) (row : Row) :
    Except PyError (Option (String × AttrValue)) :=
  if strOptTruthy field then do
    let s ← getCol row (field.getD "")
    pure (some (key, AttrValue.str s))
  else pure none

/-- Optional `dueDate` attribute: `strptime` the column value (`dp` stands for
`strptime` at the configured format; parse failure raises `ValueError` on the
literal), then apply the midnight rule, UTC conversion and formatting. -/
def optDueAttr (field : Option String) (offMin : Int) (dp : String → Option DateTime)
    (row : Row) : Except PyError (Option (String × AttrValue)) :=
  if strOptTruthy field then do
    let s ← getCol row (field.getD "")
    match dp s with
    | some d => pure (some ("dueDate", AttrValue.str (dueDateString d offMin)))
    | none => Except.error (PyError.valueError s)
  else pure none

/-- Optional verbatim column (worker username / attachment path). -/
def optCol (field : Option String) (row : Row) : Except PyError (Option String) :=
  if strOptTruthy field then do
    let s ← getCol row (field.getD "")
    pure (some s)
  else pure none

/-- Body of the per-row loop of `get_assignments_from_csv`: geometry from the
x/y columns, the four base attributes, then each optional attribute in source
order, then the transient worker / attachment entries. -/
def parseRow (cfg : ParserConfig) (dp : String → Option DateTime) (row : Row) :
    Except PyError Assignment := do
  let xs ← getCol row cfg.xField
  let x ← floatE xs
  let ys ← getCol row cfg.yField
  let y ← floatE ys
  let ts ← getCol row cfg.assignmentTypeField
  let ty ← intE ts
  let loc ← getCol row cfg.locationField
  let o1 ← optIntAttr cfg.dispatcherIdField "dispatcherId" row
  let o2 ← optStrAttr cfg.descriptionField "description" row
  let o3 ← optIntAttr cfg.priorityField "priority" row
  let o4 ← optStrAttr cfg.workOrderIdField "workOrderId" row
  let o5 ← optDueAttr cfg.dueDateField cfg.tzOffsetMinutes dp row
  let wu ← optCol cfg.workerField row
  let af ← optCol cfg.attachmentFileField row
  pure { geometry := { x := x, y := y, wkid := cfg.wkid },
         attributes := baseAttrs ty loc ++ List.filterMap id [o1, o2, o3, o4, o5],
         workerUsername := wu, attachmentFile := af }

/-- Sequential `Except`-valued map: processes the list in order and aborts at
the first failure, like the script's per-row loops. -/
def mapME {ε α β : Type} (f : α → Except ε β) : List α → Except ε (List β)
  | [] => Except.ok []
  | a :: l =>
    match f a with
    | Except.error e => Except.error e
    | Except.ok b =>
      match mapME f l with
      | Except.error e => Except.error e
      | Except.ok r => Except.ok (b :: r)

/-- `get_assignments_from_csv` after the file read: one candidate per row in
input order; the first failing row aborts the whole parse. -/
def parseRows (cfg : ParserConfig) (dp : String → Option DateTime) (rows : List Row) :
    Except PyError (List Assignment) :=
  mapME (parseRow cfg dp) rows

/-! ## Validator (`validate_assignments`) -/

/-- The reference sets `validate_assignments` snapshots from the remote
service: dispatcher and worker object ids and the coded values of the three
domain-governed fields. -/
structure Refs where
  statuses : List Int
  priorities : List Int
  assignmentTypes : List Int
  dispatcherIds : List Int
  workerIds : List Int
deriving DecidableEq, Repr

/-- Python `v in codes` for a list of integer codes: only an int attribute can
be a member. -/
def attrInInts : AttrValue → List Int → Bool
  | AttrValue.int i, l => l.contains i
  | _, _ => false

/-- The guarded priority check:
`"priority" in attributes and attributes["priority"] not in priorities`. -/
def priorityFails (refs : Refs) (a : Assignment) : Bool :=
  match getAttr a.attributes "priority" with
  | some p => !(attrInInts p refs.priorities)
  | none => false

/-- The attachment check: a truthy `attachmentFile` entry whose path is not a
file (`fe` models `os.path.isfile(os.path.abspath(...))`). -/
def attachmentFails (fe : String → Bool) (a : Assignment) : Bool :=
  match a.attachmentFile with
  | some s => s != "" && !(fe s)
  | none => false

/-- The per-candidate body of the `validate_assignments` loop, in source
order: status, priority (guarded), assignmentType, dispatcherId (unguarded
dictionary read), workerId (unguarded read, only for a truthy worker
username), attachment existence.  `Except.ok false` is the loop's
`return False`; a missing key raises `KeyError` instead. -/
def validateOne (refs : Refs) (fe : String → Bool) (a : Assignment) :
    Except PyError Bool :=
  match getAttr a.attributes "status" with
  | none => Except.error (PyError.keyError "status")
  | some st =>
    if !(attrInInts st refs.statuses) then Except.ok false
    else if priorityFails refs a then Except.ok false
    else
      match getAttr a.attributes "assignmentType" with
      | none => Except.error (PyError.keyError "assignmentType")
      | some ty =>
        if !(attrInInts ty refs.assignmentTypes) then Except.ok false
        else
          match getAttr a.attributes "dispatcherId" with
          | none => Except.error (PyError.keyError "dispatcherId")
          | some di =>
            if !(attrInInts di refs.dispatcherIds) then Except.ok false
            else
              if strOptTruthy a.workerUsername then
                match getAttr a.attributes "workerId" with
                | none => Except.error (PyError.keyError "workerId")
                | some wi =>
                  if !(attrInInts wi refs.workerIds) then Except.ok false
                  else if attachmentFails fe a then Except.ok false
                  else Except.ok true
              else if attachmentFails fe a then Except.ok false
              else Except.ok true

/-- `validate_assignments`: walk the batch in order, returning `False` at the
first failing candidate and `True` when every candidate passes. -/
def validate_assignments (refs : Refs) (fe : String → Bool) :
    List Assignment → Except PyError Bool
  | [] => Except.ok true
  | a :: rest =>
    match validateOne refs fe a with
    | Except.error e => Except.error e
    | Except.ok false => Except.ok false
    | Except.ok true => validate_assignments refs fe rest

/-- Specification-side check 2 of spec section 4.3: if `priority` is present,
it is among the valid priority codes. -/
def priorityOk (refs : Refs) (a : Assignment) : Bool :=
  match getAttr a.attributes "priority" with
  | some p => attrInInts p refs.priorities
  | none => true

/-- Specification-side check 6: if an attachment path was supplied and
non-empty, the file exists. -/
def attachmentOk (fe : String → Bool) (a : Assignment) : Bool :=
  match a.attachmentFile with
  | some s => if s != "" then fe s else true
  | none => true

/-- Specification-side statement of the six checks of spec section 4.3, read
off the spec's words (an absent guarded field passes its check; an absent
unguarded field fails membership). -/
def specPasses (refs : Refs) (fe : String → Bool) (a : Assignment) : Bool :=
  attrInInts ((getAttr a.attributes "status").getD AttrValue.null) refs.statuses &&
  priorityOk refs a &&
  attrInInts ((getAttr a.attributes "assignmentType").getD AttrValue.null) refs.assignmentTypes &&
  attrInInts ((getAttr a.attributes "dispatcherId").getD AttrValue.null) refs.dispatcherIds &&
  (if strOptTruthy a.workerUsername then
     attrInInts ((getAttr a.attributes "workerId").getD AttrValue.null) refs.workerIds
   else true) &&
  attachmentOk fe a

/-- Key-completeness: every dictionary key `validate_assignments` reads
without a guard is present (true of candidates on which dispatcher defaulting
and worker resolution have already run). -/
def keyCompleteB (a : Assignment) : Bool :=
  (getAttr a.attributes "status").isSome &&
  (getAttr a.attributes "assignmentType").isSome &&
  (getAttr a.attributes "dispatcherId").isSome &&
  (!(strOptTruthy a.workerUsername) || (getAttr a.attributes "workerId").isSome)

/-! ## Orchestrator (`main`) -/

/-- The external collaborators `main` consults after parsing, snapshotted for
one run: the `userId` queries on the dispatcher and worker collections (first
matching feature's OBJECTID), the validator's reference sets, the filesystem,
the current UTC time string, and the object ids of the bulk-insert response. -/
structure Env where
  dispatcherLookup : String → Option Int
  workerLookup : String → Option Int
  refs : Refs
  fileExists : String → Bool
  now : String
  addResults : List Int

/-- Dispatcher defaulting (one candidate):
`if "dispatcherId" not in assignment.attributes: ... = id`. -/
def defaultDispatcher (did : Int) (a : Assignment) : Assignment :=
  match getAttr a.attributes "dispatcherId" with
  | none => { a with attributes := setAttr a.attributes "dispatcherId" (AttrValue.int did) }
  | some _ => a

/-- The three dictionary writes of a successful worker resolution, in source
order: set `workerId`, overwrite `status` with 1, stamp `assignedDate`. -/
def workerEnrich (now : String) (wid : Int) (a : Assignment) : Assignment :=
  { a with attributes :=
      setAttr (setAttr (setAttr a.attributes "workerId" (AttrValue.int wid))
        "status" (AttrValue.int 1)) "assignedDate" (AttrValue.str now) }

/-- Worker resolution (one candidate): for a truthy worker username, look the
username up; on success set `workerId`, overwrite `status` with 1 and stamp
`assignedDate`; on failure abort the run (the error carries the username). -/
def resolveWorker (wl : String → Option Int) (now : String) (a : Assignment) :
    Except String Assignment :=
  if strOptTruthy a.workerUsername then
    match wl (a.workerUsername.getD "") with
    | some wid => Except.ok (workerEnrich now wid a)
    | none => Except.error (a.workerUsername.getD "")
  else Except.ok a

/-- The object-id write-back loop:
`for i in range(len(response.addResults)): assignments[i]...OBJECTID = ...`.
Candidates beyond the response length stay untouched; a response longer than
the batch raises `IndexError`. -/
def assignObjectIds : List Assignment → List Int → Except PyError (List Assignment)
  | l, [] => Except.ok l
  | a :: l, i :: ids =>
    (match assignObjectIds l ids with
     | Except.ok r =>
        Except.ok ({ a with attributes := setAttr a.attributes "OBJECTID" (AttrValue.int i) } :: r)
     | Except.error e => Except.error e)
  | [], _ :: _ => Except.error PyError.indexError

/-- Outcome of a `main` run from the parsed candidate list onward.  The
`completed` and `postInsertError` outcomes are the only ones in which
`edit_features` (the bulk insert) was called, and they record the submitted
batch. -/
inductive MainResult where
  | notDispatcher
  | workerNotFound (username : String)
  | validateRaised (e : PyError)
  | completed (submitted finalAssignments : List Assignment)
  | postInsertError (submitted : List Assignment) (e : PyError)
deriving DecidableEq, Repr

/-- The batch handed to the bulk insert, when the insert call was reached. -/
def submittedBatch : MainResult → Option (List Assignment)
  | MainResult.completed s _ => some s
  | MainResult.postInsertError s _ => some s
  | _ => none

/-- The bulk insert and the object-id write-back (script lines after the
validation call): `edit_features` is called on the enriched batch, then the
returned object ids are copied back in order. -/
def runInsert (env : Env) (enriched : List Assignment) : MainResult :=
  match assignObjectIds enriched env.addResults with
  | Except.ok finalList => MainResult.completed enriched finalList
  | Except.error e => MainResult.postInsertError enriched e

/-- The validation call followed unconditionally by the insert: the script
calls `validate_assignments` and DISCARDS its boolean result — only an
exception raised inside validation stops the run. -/
def runValidateThenInsert (env : Env) (enriched : List Assignment) : MainResult :=
  match validate_assignments env.refs env.fileExists enriched with
  | Except.error e => MainResult.validateRaised e
  | Except.ok _ => runInsert env enriched

/-- Worker resolution over the defaulted batch: abort on the first unknown
truthy username, otherwise continue to validation and insert. -/
def runResolveWorkers (env : Env) (defaulted : List Assignment) : MainResult :=
  match mapME (resolveWorker env.workerLookup env.now) defaulted with
  | Except.error u => MainResult.workerNotFound u
  | Except.ok enriched => runValidateThenInsert env enriched

/-- `main` from the parsed candidates onward: resolve the acting user's
dispatcher id (abort if absent), default every candidate's `dispatcherId`,
then worker resolution, validation (result discarded) and the bulk insert. -/
def runMain (env : Env) (username : String) (parsed : List Assignment) : MainResult :=
  match env.dispatcherLookup username with
  | none => MainResult.notDispatcher
  | some did => runResolveWorkers env (parsed.map (defaultDispatcher did))

/-! ## Concrete sample data (used by the concrete theorems below) -/

def sampleGeom : Geometry := { x := ⟨false, 15, 1⟩, y := ⟨false, 225, 2⟩, wkid := 4326 }

def cfgBasic : ParserConfig :=
  { xField := "x", yField := "y", assignmentTypeField := "type", locationField := "loc",
    dispatcherIdField := none, descriptionField := none, priorityField := none,
    workOrderIdField := none, dueDateField := none, wkid := 4326,
    attachmentFileField := none, workerField := none, tzOffsetMinutes := 0 }

def cfgDue : ParserConfig := { cfgBasic with dueDateField := some "due" }

def cfgWorker : ParserConfig := { cfgBasic with workerField := some "worker" }

def rowXY : Row := [("x", "1.5"), ("y", "2.25"), ("type", "1"), ("loc", "A")]

def rowBadX : Row := [("x", "abc"), ("y", "2.0"), ("type", "1"), ("loc", "A")]

def rowBadY : Row := [("x", "1.0"), ("y", "abc"), ("type", "1"), ("loc", "A")]

def rowDue : Row :=
  [("x", "1.5"), ("y", "2.25"), ("type", "1"), ("loc", "A"), ("due", "01/15/2024 00:00:00")]

def rowAlice : Row :=
  [("x", "1.5"), ("y", "2.25"), ("type", "1"), ("loc", "A"), ("worker", "alice")]

def rowEmptyWorker : Row :=
  [("x", "3"), ("y", "4"), ("type", "1"), ("loc", "B"), ("worker", "")]

def refsDomains : Refs :=
  { statuses := [0, 1], priorities := [4], assignmentTypes := [1, 2],
    dispatcherIds := [7], workerIds := [3] }

def noFile : String → Bool := fun _ => false

def plainCandidate : Assignment :=
  { geometry := sampleGeom, attributes := baseAttrs 1 "A",
    workerUsername := none, attachmentFile := none }

def bobCandidate : Assignment :=
  { geometry := sampleGeom, attributes := baseAttrs 1 "B",
    workerUsername := some "bob", attachmentFile := none }

def validCandidate : Assignment :=
  { geometry := sampleGeom,
    attributes := baseAttrs 1 "A" ++ [("dispatcherId", AttrValue.int 7)],
    workerUsername := none, attachmentFile := none }

def noDispatcherCandidate : Assignment :=
  { geometry := sampleGeom, attributes := baseAttrs 1 "L",
    workerUsername := none, attachmentFile := none }

def badStatusNoDisp : Assignment :=
  { geometry := sampleGeom,
    attributes := [("assignmentType", AttrValue.int 1), ("location", AttrValue.str "L"),
                   ("status", AttrValue.int 9), ("assignmentRead", AttrValue.null)],
    workerUsername := none, attachmentFile := none }

def noWorkerIdCandidate : Assignment :=
  { geometry := sampleGeom,
    attributes := baseAttrs 1 "C" ++ [("dispatcherId", AttrValue.int 7)],
    workerUsername := some "carol", attachmentFile := none }

def carolCompleteCandidate : Assignment :=
  { geometry := sampleGeom,
    attributes := baseAttrs 1 "C" ++
      [("dispatcherId", AttrValue.int 7), ("workerId", AttrValue.int 3)],
    workerUsername := some "carol", attachmentFile := none }

def dueSample : Assignment :=
  { geometry := sampleGeom,
    attributes := baseAttrs 1 "A" ++ [("dueDate", AttrValue.str "01/15/2024 23:59:59")],
    workerUsername := none, attachmentFile := none }

def envRun : Env :=
  { dispatcherLookup := fun u => if u = "boss" then some 7 else none,
    workerLookup := fun u => if u = "alice" then some 3 else none,
    refs := { statuses := [0, 1], priorities := [], assignmentTypes := [1],
              dispatcherIds := [7], workerIds := [3] },
    fileExists := fun _ => true, now := "10/12/2026 00:00:00",
    addResults := [101, 102] }

def envNoWorker : Env :=
  { dispatcherLookup := fun u => if u = "boss" then some 7 else none,
    workerLookup := fun _ => none,
    refs := refsDomains, fileExists := fun _ => true,
    now := "10/12/2026 00:00:00", addResults := [] }

def envValidationFail : Env :=
  { dispatcherLookup := fun u => if u = "boss" then some 7 else none,
    workerLookup := fun _ => none,
    refs := { statuses := [1, 2], priorities := [], assignmentTypes := [1],
              dispatcherIds := [7], workerIds := [] },
    fileExists := fun _ => true, now := "10/12/2026 00:00:00",
    addResults := [55] }

def noDispatcherEnriched : Assignment :=
  { geometry := sampleGeom,
    attributes := baseAttrs 1 "L" ++ [("dispatcherId", AttrValue.int 7)],
    workerUsername := none, attachmentFile := none }

def invalidStatusFinal : Assignment :=
  { geometry := sampleGeom,
    attributes := baseAttrs 1 "L" ++
      [("dispatcherId", AttrValue.int 7), ("OBJECTID", AttrValue.int 55)],
    workerUsername := none, attachmentFile := none }

def aliceParsed : Assignment :=
  { geometry := sampleGeom, attributes := baseAttrs 1 "A",
    workerUsername := some "alice", attachmentFile := none }

def emptyWorkerParsed : Assignment :=
  { geometry := { x := ⟨false, 3, 0⟩, y := ⟨false, 4, 0⟩, wkid := 4326 },
    attributes := baseAttrs 1 "B", workerUsername := some "", attachmentFile := none }

def parsedPair : List Assignment := [aliceParsed, emptyWorkerParsed]

def aliceEnriched : Assignment :=
  { geometry := sampleGeom,
    attributes := [("assignmentType", AttrValue.int 1), ("location", AttrValue.str "A"),
                   ("status", AttrValue.int 1), ("assignmentRead", AttrValue.null),
                   ("dispatcherId", AttrValue.int 7), ("workerId", AttrValue.int 3),
                   ("assignedDate", AttrValue.str "10/12/2026 00:00:00")],
    workerUsername := some "alice", attachmentFile := none }

def emptyWorkerEnriched : Assignment :=
  { geometry := { x := ⟨false, 3, 0⟩, y := ⟨false, 4, 0⟩, wkid := 4326 },
    attributes := baseAttrs 1 "B" ++ [("dispatcherId", AttrValue.int 7)],
    workerUsername := some "", attachmentFile := none }

def subPair : List Assignment := [aliceEnriched, emptyWorkerEnriched]

def finPair : List Assignment :=
  [{ aliceEnriched with
       attributes := aliceEnriched.attributes ++ [("OBJECTID", AttrValue.int 101)] },
   { emptyWorkerEnriched with
       attributes := emptyWorkerEnriched.attributes ++ [("OBJECTID", AttrValue.int 102)] }]

/-! ## Basic lemmas about the embedding -/

theorem ok_bind {ε α β : Type} (a : α) (f : α → Except ε β) :
    (Except.ok a : Except ε α) >>= f = f a := rfl

theorem error_bind {ε α β : Type} (e : ε) (f : α → Except ε β) :
    (Except.error e : Except ε α) >>= f = Except.error e := rfl

theorem pure_eq_ok {ε α : Type} (a : α) : (pure a : Except ε α) = Except.ok a := rfl

theorem floatE_ok (s : String) (v : PyFloat) :
    floatE s = Except.ok v ↔ pyParseFloat s = some v := by
  unfold floatE
  cases h : pyParseFloat s <;> simp

theorem intE_ok (s : String) (v : Int) :
    intE s = Except.ok v ↔ pyParseInt s = some v := by
  unfold intE
  cases h : pyParseInt s <;> simp

theorem getAttr_append (l1 l2 : Attrs) (k : String) :
    getAttr (l1 ++ l2) k =
      match getAttr l1 k with
      | some v => some v
      | none => getAttr l2 k := by
  induction l1 with
  | nil => rfl
  | cons p rest ih =>
    cases p with
    | mk k1 v1 =>
      by_cases h : k1 = k
      · simp [getAttr, h]
      · simp [getAttr, h, ih]

theorem getAttr_append_none (l1 l2 : Attrs) (k : String)
    (h : getAttr l1 k = none) : getAttr (l1 ++ l2) k = getAttr l2 k := by
  rw [getAttr_append, h]

theorem getAttr_append_some (l1 l2 : Attrs) (k : String) (v : AttrValue)
    (h : getAttr l1 k = some v) : getAttr (l1 ++ l2) k = some v := by
  rw [getAttr_append, h]

theorem getAttr_eq_none_of_keys (l : Attrs) (k : String)
    (h : ∀ p ∈ l, p.1 ≠ k) : getAttr l k = none := by
  induction l with
  | nil => rfl
  | cons p rest ih =>
    cases p with
    | mk k1 v1 =>
      have h1 : k1 ≠ k := h (k1, v1) (List.mem_cons_self _ _)
      simp only [getAttr, h1, if_false]
      exact ih fun q hq => h q (List.mem_cons_of_mem _ hq)

theorem getAttr_setAttr_same (l : Attrs) (k : String) (v : AttrValue) :
    getAttr (setAttr l k v) k = some v := by
  induction l with
  | nil => simp [setAttr, getAttr]
  | cons p rest ih =>
    cases p with
    | mk k1 v1 =>
      by_cases h : k1 = k
      · simp [setAttr, getAttr, h]
      · simp [setAttr, getAttr, h, ih]

theorem getAttr_setAttr_other (l : Attrs) (k k2 : String) (v : AttrValue)
    (h : k2 ≠ k) : getAttr (setAttr l k v) k2 = getAttr l k2 := by
  induction l with
  | nil =>
    simp only [setAttr, getAttr]
    rw [if_neg (Ne.symm h)]
  | cons p rest ih =>
    cases p with
    | mk k1 v1 =>
      by_cases h1 : k1 = k
      · have hne : k1 ≠ k2 := by rw [h1]; exact Ne.symm h
        simp only [setAttr, if_pos h1, getAttr, if_neg hne]
      · by_cases h2 : k1 = k2
        · simp only [setAttr, if_neg h1, getAttr, if_pos h2]
        · simp only [setAttr, if_neg h1, getAttr, if_neg h2, ih]

theorem mapME_ok_mem {ε α β : Type} (f : α → Except ε β) (l : List α)
    (r : List β) (h : mapME f l = Except.ok r) :
    ∀ b ∈ r, ∃ a ∈ l, f a = Except.ok b := by
  induction l generalizing r with
  | nil =>
    simp only [mapME] at h
    cases h
    intro b hb
    cases hb
  | cons a0 rest ih =>
    simp only [mapME] at h
    cases hfa : f a0 with
    | error e => rw [hfa] at h; cases h
    | ok b0 =>
      rw [hfa] at h
      cases hrest : mapME f rest with
      | error e => rw [hrest] at h; cases h
      | ok r0 =>
        rw [hrest] at h
        cases h
        intro b hb
        rcases List.mem_cons.1 hb with hb | hb
        · exact ⟨a0, List.mem_cons_self _ _, hb ▸ hfa⟩
        · rcases ih r0 hrest b hb with ⟨a, ha, hfa2⟩
          exact ⟨a, List.mem_cons_of_mem _ ha, hfa2⟩

theorem mapME_error_of_mem {ε α β : Type} (f : α → Except ε β) (l : List α)
    (a : α) (e : ε) (ha : a ∈ l) (hfa : f a = Except.error e) :
    ∃ e2, mapME f l = Except.error e2 := by
  induction l with
  | nil => cases ha
  | cons a0 rest ih =>
    rcases List.mem_cons.1 ha with h | h
    · subst h
      exact ⟨e, by simp [mapME, hfa]⟩
    · cases hfa0 : f a0 with
      | error e0 => exact ⟨e0, by simp [mapME, hfa0]⟩
      | ok b0 =>
        rcases ih h with ⟨e2, h2⟩
        exact ⟨e2, by simp [mapME, hfa0, h2]⟩

theorem optIntAttr_ok_shape (field : Option String) (key : String) (row : Row)
    (o : Option (String × AttrValue))
    (h : optIntAttr field key row = Except.ok o) :
    o = none ∨ ∃ v, o = some (key, AttrValue.int v) := by
  unfold optIntAttr at h
  by_cases ht : strOptTruthy field = true
  · rw [if_pos ht] at h
    cases hc : getCol row (field.getD "") with
    | error e => rw [hc] at h; exact absurd h (by simp [error_bind])
    | ok s =>
      rw [hc, ok_bind] at h
      cases hv : intE s with
      | error e => rw [hv] at h; exact absurd h (by simp [error_bind])
      | ok v =>
        rw [hv, ok_bind, pure_eq_ok] at h
        cases h
        exact Or.inr ⟨v, rfl⟩
  · rw [if_neg ht, pure_eq_ok] at h
    cases h
    exact Or.inl rfl

theorem optStrAttr_ok_shape (field : Option String) (key : String) (row : Row)
    (o : Option (String × AttrValue))
    (h : optStrAttr field key row = Except.ok o) :
    o = none ∨ ∃ v, o = some (key, AttrValue.str v) := by
  unfold optStrAttr at h
  by_cases ht : strOptTruthy field = true
  · rw [if_pos ht] at h
    cases hc : getCol row (field.getD "") with
    | error e => rw [hc] at h; exact absurd h (by simp [error_bind])
    | ok s =>
      rw [hc, ok_bind, pure_eq_ok] at h
      cases h
      exact Or.inr ⟨s, rfl⟩
  · rw [if_neg ht, pure_eq_ok] at h
    cases h
    exact Or.inl rfl

theorem optDueAttr_ok_shape (field : Option String) (offMin : Int)
    (dp : String → Option DateTime) (row : Row) (o : Option (String × AttrValue))
    (h : optDueAttr field offMin dp row = Except.ok o) :
    o = none ∨ ∃ v, o = some ("dueDate", AttrValue.str v) := by
  unfold optDueAttr at h
  by_cases ht : strOptTruthy field = true
  · rw [if_pos ht] at h
    cases hc : getCol row (field.getD "") with
    | error e => rw [hc] at h; exact absurd h (by simp [error_bind])
    | ok s =>
      rw [hc, ok_bind] at h
      cases hd : dp s with
      | none =>
        rw [hd] at h
        have h2 : Except.error (PyError.valueError s) = Except.ok o := h
        cases h2
      | some d =>
        rw [hd] at h
        have h2 : Except.ok (some ("dueDate", AttrValue.str (dueDateString d offMin)))
            = Except.ok o := h
        cases h2
        exact Or.inr ⟨_, rfl⟩
  · rw [if_neg ht, pure_eq_ok] at h
    cases h
    exact Or.inl rfl

/-- Inversion of a successful `parseRow`: every sequenced step succeeded and
the produced candidate is exactly the assembled record. -/
theorem parseRow_ok_elim (cfg : ParserConfig) (dp : String → Option DateTime)
    (row : Row) (a : Assignment) (h : parseRow cfg dp row = Except.ok a) :
    ∃ xs x ys y ts ty loc o1 o2 o3 o4 o5 wu af,
      getCol row cfg.xField = Except.ok xs ∧ floatE xs = Except.ok x ∧
      getCol row cfg.yField = Except.ok ys ∧ floatE ys = Except.ok y ∧
      getCol row cfg.assignmentTypeField = Except.ok ts ∧ intE ts = Except.ok ty ∧
      getCol row cfg.locationField = Except.ok loc ∧
      optIntAttr cfg.dispatcherIdField "dispatcherId" row = Except.ok o1 ∧
      optStrAttr cfg.descriptionField "description" row = Except.ok o2 ∧
      optIntAttr cfg.priorityField "priority" row = Except.ok o3 ∧
      optStrAttr cfg.workOrderIdField "workOrderId" row = Except.ok o4 ∧
      optDueAttr cfg.dueDateField cfg.tzOffsetMinutes dp row = Except.ok o5 ∧
      optCol cfg.workerField row = Except.ok wu ∧
      optCol cfg.attachmentFileField row = Except.ok af ∧
      a = { geometry := { x := x, y := y, wkid := cfg.wkid },
            attributes := baseAttrs ty loc ++ List.filterMap id [o1, o2, o3, o4, o5],
            workerUsername := wu, attachmentFile := af } := by
  unfold parseRow at h
  cases h1 : getCol row cfg.xField with
  | error e0 => rw [h1, error_bind] at h; cases h
  | ok xs =>
  rw [h1, ok_bind] at h
  cases h2 : floatE xs with
  | error e0 => rw [h2, error_bind] at h; cases h
  | ok x =>
  rw [h2, ok_bind] at h
  cases h3 : getCol row cfg.yField with
  | error e0 => rw [h3, error_bind] at h; cases h
  | ok ys =>
  rw [h3, ok_bind] at h
  cases h4 : floatE ys with
  | error e0 => rw [h4, error_bind] at h; cases h
  | ok y =>
  rw [h4, ok_bind] at h
  cases h5 : getCol row cfg.assignmentTypeField with
  | error e0 => rw [h5, error_bind] at h; cases h
  | ok ts =>
  rw [h5, ok_bind] at h
  cases h6 : intE ts with
  | error e0 => rw [h6, error_bind] at h; cases h
  | ok ty =>
  rw [h6, ok_bind] at h
  cases h7 : getCol row cfg.locationField with
  | error e0 => rw [h7, error_bind] at h; cases h
  | ok loc =>
  rw [h7, ok_bind] at h
  cases ho1 : optIntAttr cfg.dispatcherIdField "dispatcherId" row with
  | error e0 => rw [ho1, error_bind] at h; cases h
  | ok o1 =>
  rw [ho1, ok_bind] at h
  cases ho2 : optStrAttr cfg.descriptionField "description" row with
  | error e0 => rw [ho2, error_bind] at h; cases h
  | ok o2 =>
  rw [ho2, ok_bind] at h
  cases ho3 : optIntAttr cfg.priorityField "priority" row with
  | error e0 => rw [ho3, error_bind] at h; cases h
  | ok o3 =>
  rw [ho3, ok_bind] at h
  cases ho4 : optStrAttr cfg.workOrderIdField "workOrderId" row with
  | error e0 => rw [ho4, error_bind] at h; cases h
  | ok o4 =>
  rw [ho4, ok_bind] at h
  cases ho5 : optDueAttr cfg.dueDateField cfg.tzOffsetMinutes dp row with
  | error e0 => rw [ho5, error_bind] at h; cases h
  | ok o5 =>
  rw [ho5, ok_bind] at h
  cases hw : optCol cfg.workerField row with
  | error e0 => rw [hw, error_bind] at h; cases h
  | ok wu =>
  rw [hw, ok_bind] at h
  cases ha : optCol cfg.attachmentFileField row with
  | error e0 => rw [ha, error_bind] at h; cases h
  | ok af =>
  rw [ha, ok_bind, pure_eq_ok] at h
  cases h
  exact ⟨xs, x, ys, y, ts, ty, loc, o1, o2, o3, o4, o5, wu, af,
    rfl, h2, rfl, h4, rfl, h6, rfl, rfl, rfl, rfl, rfl, rfl, rfl, rfl, rfl⟩

/-- The keys a fresh candidate's optional attributes can carry. -/
theorem parseRow_opt_keys (cfg : ParserConfig) (dp : String → Option DateTime)
    (row : Row) (o1 o2 o3 o4 o5 : Option (String × AttrValue))
    (ho1 : optIntAttr cfg.dispatcherIdField "dispatcherId" row = Except.ok o1)
    (ho2 : optStrAttr cfg.descriptionField "description" row = Except.ok o2)
    (ho3 : optIntAttr cfg.priorityField "priority" row = Except.ok o3)
    (ho4 : optStrAttr cfg.workOrderIdField "workOrderId" row = Except.ok o4)
    (ho5 : optDueAttr cfg.dueDateField cfg.tzOffsetMinutes dp row = Except.ok o5) :
    ∀ p ∈ List.filterMap id [o1, o2, o3, o4, o5],
      p.1 = "dispatcherId" ∨ p.1 = "description" ∨ p.1 = "priority" ∨
      p.1 = "workOrderId" ∨ p.1 = "dueDate" := by
  intro p hp
  rcases List.mem_filterMap.1 hp with ⟨o, ho, hid⟩
  have hop : o = some p := hid
  subst hop
  have hmem : some p = o1 ∨ some p = o2 ∨ some p = o3 ∨ some p = o4 ∨ some p = o5 := by
    simpa using ho
  rcases hmem with h | h | h | h | h
  · rcases optIntAttr_ok_shape _ _ _ _ ho1 with hn | ⟨v, hv⟩
    · rw [hn] at h; cases h
    · rw [hv] at h; cases h; exact Or.inl rfl
  · rcases optStrAttr_ok_shape _ _ _ _ ho2 with hn | ⟨v, hv⟩
    · rw [hn] at h; cases h
    · rw [hv] at h; cases h; exact Or.inr (Or.inl rfl)
  · rcases optIntAttr_ok_shape _ _ _ _ ho3 with hn | ⟨v, hv⟩
    · rw [hn] at h; cases h
    · rw [hv] at h; cases h; exact Or.inr (Or.inr (Or.inl rfl))
  · rcases optStrAttr_ok_shape _ _ _ _ ho4 with hn | ⟨v, hv⟩
    · rw [hn] at h; cases h
    · rw [hv] at h; cases h; exact Or.inr (Or.inr (Or.inr (Or.inl rfl)))
  · rcases optDueAttr_ok_shape _ _ _ _ _ ho5 with hn | ⟨v, hv⟩
    · rw [hn] at h; cases h
    · rw [hv] at h; cases h; exact Or.inr (Or.inr (Or.inr (Or.inr rfl)))

theorem priorityOk_eq_not_fails (refs : Refs) (a : Assignment) :
    priorityOk refs a = !(priorityFails refs a) := by
  unfold priorityOk priorityFails
  cases getAttr a.attributes "priority" <;> simp

theorem attachmentOk_eq_not_fails (fe : String → Bool) (a : Assignment) :
    attachmentOk fe a = !(attachmentFails fe a) := by
  unfold attachmentOk attachmentFails
  cases a.attachmentFile with
  | none => rfl
  | some s =>
    by_cases h : s != ""
    · simp [h]
    · simp [h]

/-- Under key-completeness the per-candidate loop body returns exactly the
specification's six-check verdict and never raises. -/
theorem validateOne_keyComplete (refs : Refs) (fe : String → Bool) (a : Assignment)
    (h : keyCompleteB a = true) :
    validateOne refs fe a = Except.ok (specPasses refs fe a) := by
  unfold keyCompleteB at h
  simp only [Bool.and_eq_true, Bool.or_eq_true, Bool.not_eq_true'] at h
  obtain ⟨⟨⟨hs, ht⟩, hd⟩, hw⟩ := h
  rcases Option.isSome_iff_exists.1 hs with ⟨st, hst⟩
  rcases Option.isSome_iff_exists.1 ht with ⟨ty, hty⟩
  rcases Option.isSome_iff_exists.1 hd with ⟨di, hdi⟩
  cases hb1 : attrInInts st refs.statuses with
  | false =>
    simp [validateOne, specPasses, hst, hty, hdi, hb1]
  | true =>
    cases hb2 : priorityFails refs a with
    | true =>
      simp [validateOne, specPasses, hst, hty, hdi, hb1, hb2,
        priorityOk_eq_not_fails]
    | false =>
      cases hb3 : attrInInts ty refs.assignmentTypes with
      | false =>
        simp [validateOne, specPasses, hst, hty, hdi, hb1, hb2, hb3,
          priorityOk_eq_not_fails]
      | true =>
        cases hb4 : attrInInts di refs.dispatcherIds with
        | false =>
          simp [validateOne, specPasses, hst, hty, hdi, hb1, hb2, hb3, hb4,
            priorityOk_eq_not_fails]
        | true =>
          cases hwt : strOptTruthy a.workerUsername with
          | false =>
            cases hb6 : attachmentFails fe a with
            | true =>
              simp [validateOne, specPasses, hst, hty, hdi, hb1, hb2, hb3, hb4,
                hwt, hb6, priorityOk_eq_not_fails, attachmentOk_eq_not_fails]
            | false =>
              simp [validateOne, specPasses, hst, hty, hdi, hb1, hb2, hb3, hb4,
                hwt, hb6, priorityOk_eq_not_fails, attachmentOk_eq_not_fails]
          | true =>
            have hwi : (getAttr a.attributes "workerId").isSome = true := by
              rcases hw with hw | hw
              · rw [hwt] at hw; cases hw
              · exact hw
            rcases Option.isSome_iff_exists.1 hwi with ⟨wi, hwiv⟩
            cases hb5 : attrInInts wi refs.workerIds with
            | false =>
              simp [validateOne, specPasses, hst, hty, hdi, hwiv, hb1, hb2, hb3,
                hb4, hb5, hwt, priorityOk_eq_not_fails, attachmentOk_eq_not_fails]
            | true =>
              cases hb6 : attachmentFails fe a with
              | true =>
                simp [validateOne, specPasses, hst, hty, hdi, hwiv, hb1, hb2, hb3,
                  hb4, hb5, hwt, hb6, priorityOk_eq_not_fails, attachmentOk_eq_not_fails]
              | false =>
                simp [validateOne, specPasses, hst, hty, hdi, hwiv, hb1, hb2, hb3,
                  hb4, hb5, hwt, hb6, priorityOk_eq_not_fails, attachmentOk_eq_not_fails]

/-- Under key-completeness of the whole batch, `validate_assignments` returns
exactly "every candidate passes the six specification checks" (the list is
walked in order; the `false` case is the script's early `return False`). -/
theorem validate_eq_allSpec (refs : Refs) (fe : String → Bool) (l : List Assignment)
    (h : ∀ a ∈ l, keyCompleteB a = true) :
    validate_assignments refs fe l = Except.ok (l.all (specPasses refs fe)) := by
  induction l with
  | nil => rfl
  | cons a rest ih =>
    have ha := h a (List.mem_cons_self _ _)
    have hrest := ih fun b hb => h b (List.mem_cons_of_mem _ hb)
    unfold validate_assignments
    rw [validateOne_keyComplete refs fe a ha]
    cases hsp : specPasses refs fe a with
    | false => simp [hsp]
    | true => simp [hsp, hrest]

theorem defaultDispatcher_of_none (did : Int) (a : Assignment)
    (h : getAttr a.attributes "dispatcherId" = none) :
    defaultDispatcher did a =
      { a with attributes := setAttr a.attributes "dispatcherId" (AttrValue.int did) } := by
  unfold defaultDispatcher
  rw [h]

theorem defaultDispatcher_of_some (did : Int) (a : Assignment) (v : AttrValue)
    (h : getAttr a.attributes "dispatcherId" = some v) :
    defaultDispatcher did a = a := by
  unfold defaultDispatcher
  rw [h]

theorem defaultDispatcher_attr_other (did : Int) (a : Assignment) (k : String)
    (h : k ≠ "dispatcherId") :
    getAttr (defaultDispatcher did a).attributes k = getAttr a.attributes k := by
  cases hd : getAttr a.attributes "dispatcherId" with
  | none =>
    rw [defaultDispatcher_of_none did a hd]
    exact getAttr_setAttr_other _ _ _ _ h
  | some v => rw [defaultDispatcher_of_some did a v hd]

theorem defaultDispatcher_has_id (did : Int) (a : Assignment) :
    getAttr (defaultDispatcher did a).attributes "dispatcherId" ≠ none := by
  cases hd : getAttr a.attributes "dispatcherId" with
  | none =>
    rw [defaultDispatcher_of_none did a hd]
    simp [getAttr_setAttr_same]
  | some v =>
    rw [defaultDispatcher_of_some did a v hd, hd]
    simp

theorem defaultDispatcher_set (did : Int) (a : Assignment)
    (h : getAttr a.attributes "dispatcherId" = none) :
    getAttr (defaultDispatcher did a).attributes "dispatcherId" = some (AttrValue.int did) := by
  rw [defaultDispatcher_of_none did a h]
  exact getAttr_setAttr_same _ _ _

theorem defaultDispatcher_fields (did : Int) (a : Assignment) :
    (defaultDispatcher did a).geometry = a.geometry ∧
    (defaultDispatcher did a).workerUsername = a.workerUsername ∧
    (defaultDispatcher did a).attachmentFile = a.attachmentFile := by
  unfold defaultDispatcher
  cases getAttr a.attributes "dispatcherId" <;> exact ⟨rfl, rfl, rfl⟩

theorem workerEnrich_status (now : String) (wid : Int) (a : Assignment) :
    getAttr (workerEnrich now wid a).attributes "status" = some (AttrValue.int 1) := by
  unfold workerEnrich
  rw [getAttr_setAttr_other _ _ _ _ (by decide)]
  exact getAttr_setAttr_same _ _ _

theorem workerEnrich_workerId (now : String) (wid : Int) (a : Assignment) :
    getAttr (workerEnrich now wid a).attributes "workerId" = some (AttrValue.int wid) := by
  unfold workerEnrich
  rw [getAttr_setAttr_other _ _ _ _ (by decide), getAttr_setAttr_other _ _ _ _ (by decide)]
  exact getAttr_setAttr_same _ _ _

theorem workerEnrich_assignedDate (now : String) (wid : Int) (a : Assignment) :
    getAttr (workerEnrich now wid a).attributes "assignedDate" = some (AttrValue.str now) := by
  unfold workerEnrich
  exact getAttr_setAttr_same _ _ _

theorem workerEnrich_workerUsername (now : String) (wid : Int) (a : Assignment) :
    (workerEnrich now wid a).workerUsername = a.workerUsername := rfl

theorem resolveWorker_ok_elim (wl : String → Option Int) (now : String)
    (a c : Assignment) (h : resolveWorker wl now a = Except.ok c) :
    (strOptTruthy a.workerUsername = false ∧ c = a) ∨
    (strOptTruthy a.workerUsername = true ∧
      ∃ wid, wl (a.workerUsername.getD "") = some wid ∧ c = workerEnrich now wid a) := by
  unfold resolveWorker at h
  by_cases ht : strOptTruthy a.workerUsername = true
  · rw [if_pos ht] at h
    cases hw : wl (a.workerUsername.getD "") with
    | none =>
      rw [hw] at h
      cases h
    | some wid =>
      rw [hw] at h
      cases h
      exact Or.inr ⟨ht, wid, rfl, rfl⟩
  · rw [if_neg ht] at h
    cases h
    exact Or.inl ⟨Bool.not_eq_true _ ▸ Bool.of_not_eq_true ht, rfl⟩

theorem resolveWorker_error_of_lookup_none (wl : String → Option Int) (now : String)
    (a : Assignment) (ht : strOptTruthy a.workerUsername = true)
    (hw : wl (a.workerUsername.getD "") = none) :
    resolveWorker wl now a = Except.error (a.workerUsername.getD "") := by
  unfold resolveWorker
  rw [if_pos ht, hw]

theorem runInsert_elim (env : Env) (enriched sub fin : List Assignment)
    (h : runInsert env enriched = MainResult.completed sub fin) :
    sub = enriched ∧ assignObjectIds enriched env.addResults = Except.ok fin := by
  unfold runInsert at h
  cases hoi : assignObjectIds enriched env.addResults with
  | ok finalList =>
    rw [hoi] at h
    cases h
    exact ⟨rfl, rfl⟩
  | error e =>
    rw [hoi] at h
    cases h

theorem runValidateThenInsert_elim (env : Env) (enriched sub fin : List Assignment)
    (h : runValidateThenInsert env enriched = MainResult.completed sub fin) :
    sub = enriched ∧ assignObjectIds enriched env.addResults = Except.ok fin := by
  unfold runValidateThenInsert at h
  cases hv : validate_assignments env.refs env.fileExists enriched with
  | error e =>
    rw [hv] at h
    cases h
  | ok b =>
    rw [hv] at h
    exact runInsert_elim env enriched sub fin h

/-- Inversion of a completed run: the dispatcher lookup and worker resolution
succeeded, the submitted batch is the enriched list, and the object-id
write-back succeeded on it. -/
theorem runMain_completed_elim (env : Env) (username : String)
    (parsed sub fin : List Assignment)
    (h : runMain env username parsed = MainResult.completed sub fin) :
    ∃ did, env.dispatcherLookup username = some did ∧
      mapME (resolveWorker env.workerLookup env.now)
        (parsed.map (defaultDispatcher did)) = Except.ok sub ∧
      assignObjectIds sub env.addResults = Except.ok fin := by
  unfold runMain at h
  cases hd : env.dispatcherLookup username with
  | none => rw [hd] at h; cases h
  | some did =>
    rw [hd] at h
    have h2 : runResolveWorkers env (parsed.map (defaultDispatcher did)) =
        MainResult.completed sub fin := h
    unfold runResolveWorkers at h2
    cases hm : mapME (resolveWorker env.workerLookup env.now)
        (parsed.map (defaultDispatcher did)) with
    | error u =>
      rw [hm] at h2
      cases h2
    | ok enriched =>
      rw [hm] at h2
      rcases runValidateThenInsert_elim env enriched sub fin h2 with ⟨hsub, hfin⟩
      subst hsub
      exact ⟨did, rfl, hm, hfin⟩

/-- A failed worker lookup for any candidate with a truthy username ends the
run in `workerNotFound` (the first such candidate's username). -/
theorem runMain_workerNotFound_of_lookup_none (env : Env) (username : String)
    (parsed : List Assignment) (did : Int) (a : Assignment)
    (hd : env.dispatcherLookup username = some did)
    (ha : a ∈ parsed) (ht : strOptTruthy a.workerUsername = true)
    (hw : env.workerLookup (a.workerUsername.getD "") = none) :
    ∃ u, runMain env username parsed = MainResult.workerNotFound u := by
  have hmem : defaultDispatcher did a ∈ parsed.map (defaultDispatcher did) :=
    List.mem_map_of_mem _ ha
  have hwu : (defaultDispatcher did a).workerUsername = a.workerUsername :=
    (defaultDispatcher_fields did a).2.1
  have herr : resolveWorker env.workerLookup env.now (defaultDispatcher did a) =
      Except.error ((defaultDispatcher did a).workerUsername.getD "") := by
    apply resolveWorker_error_of_lookup_none
    · rw [hwu]; exact ht
    · rw [hwu]; exact hw
  rcases mapME_error_of_mem _ _ _ _ hmem herr with ⟨u, hu⟩
  refine ⟨u, ?_⟩
  show runMain env username parsed = MainResult.workerNotFound u
  unfold runMain
  rw [hd]
  show runResolveWorkers env (parsed.map (defaultDispatcher did)) =
    MainResult.workerNotFound u
  unfold runResolveWorkers
  rw [hu]

/-- A freshly parsed candidate has `status = 0` and carries neither
`workerId` nor `assignedDate`. -/
theorem parseRow_attrs_fresh (cfg : ParserConfig) (dp : String → Option DateTime)
    (row : Row) (a : Assignment) (h : parseRow cfg dp row = Except.ok a) :
    getAttr a.attributes "status" = some (AttrValue.int 0) ∧
    getAttr a.attributes "workerId" = none ∧
    getAttr a.attributes "assignedDate" = none := by
  rcases parseRow_ok_elim cfg dp row a h with
    ⟨xs, x, ys, y, ts, ty, loc, o1, o2, o3, o4, o5, wu, af,
     h1, h2, h3, h4, h5, h6, h7, ho1, ho2, ho3, ho4, ho5, hw, ha, rfl⟩
  have hkeys := parseRow_opt_keys cfg dp row o1 o2 o3 o4 o5 ho1 ho2 ho3 ho4 ho5
  have hbs : getAttr (baseAttrs ty loc) "status" = some (AttrValue.int 0) := rfl
  have hbw : getAttr (baseAttrs ty loc) "workerId" = none := rfl
  have hba : getAttr (baseAttrs ty loc) "assignedDate" = none := rfl
  have hrw : getAttr (List.filterMap id [o1, o2, o3, o4, o5]) "workerId" = none := by
    apply getAttr_eq_none_of_keys
    intro p hp
    rcases hkeys p hp with h | h | h | h | h <;> rw [h] <;> decide
  have hra : getAttr (List.filterMap id [o1, o2, o3, o4, o5]) "assignedDate" = none := by
    apply getAttr_eq_none_of_keys
    intro p hp
    rcases hkeys p hp with h | h | h | h | h <;> rw [h] <;> decide
  refine ⟨?_, ?_, ?_⟩
  · rw [getAttr_append, hbs]
  · rw [getAttr_append, hbw, hrw]
  · rw [getAttr_append, hba, hra]

/-! ## Claim theorems -/

/-- Claim C1 (code bug): the claim says a failed batch validation aborts the
run before submission, with no bulk insert.  The script computes the
validation verdict but discards it (`validate_assignments(...)` on its own
line), so on a batch whose only candidate has an invalid status code the
validator returns `False` and the orchestrator nevertheless reaches the bulk
insert and submits that very batch: here validation fails, yet the run
completes with the invalid record submitted and given OBJECTID 55. -/
theorem c1_validation_failure_still_submits :
    validate_assignments envValidationFail.refs envValidationFail.fileExists
      [noDispatcherEnriched] = Except.ok false ∧
    runMain envValidationFail "boss" [noDispatcherCandidate] =
      MainResult.completed [noDispatcherEnriched] [invalidStatusFinal] ∧
    submittedBatch (runMain envValidationFail "boss" [noDispatcherCandidate]) =
      some [noDispatcherEnriched] :=
  ⟨rfl, rfl, rfl⟩

/-- Claim C2 counterexample: a candidate whose attributes are only the four
base keys (legal per the data model, where `dispatcherId` is optional) passes
checks 1-3 and fails check 4, so the claim predicts `False`; the code instead
raises `KeyError` on the unguarded `attributes["dispatcherId"]` read, so
validation neither returns `True` nor `False`. -/
theorem c2_counterexample :
    specPasses refsDomains noFile noDispatcherCandidate = false ∧
    validate_assignments refsDomains noFile [noDispatcherCandidate] =
      Except.error (PyError.keyError "dispatcherId") :=
  ⟨rfl, rfl⟩

/-- Claim C2 (amended): for every candidate list whose candidates carry the
keys the validator reads without a guard (`status`, `assignmentType`,
`dispatcherId`, and `workerId` when a non-empty worker username was supplied),
`validate_assignments` returns `True` iff every candidate passes all six
checks, applying them per candidate in the fixed source order, and otherwise
returns `False` at the first failing candidate. -/
theorem c2_validate_true_iff_all_checks (refs : Refs) (fe : String → Bool)
    (l : List Assignment) (h : ∀ a ∈ l, keyCompleteB a = true) :
    validate_assignments refs fe l = Except.ok (l.all (specPasses refs fe)) :=
  validate_eq_allSpec refs fe l h

/-- Claim C2 witness: the amended theorem applied to a concrete key-complete
singleton batch. -/
theorem c2_witness :
    (∀ a ∈ [validCandidate], keyCompleteB a = true) ∧
    validate_assignments refsDomains noFile [validCandidate] =
      Except.ok (([validCandidate]).all (specPasses refsDomains noFile)) :=
  ⟨by decide, c2_validate_true_iff_all_checks refsDomains noFile [validCandidate] (by decide)⟩

/-- Claim C10 counterexample: the claim says a candidate missing the
`dispatcherId` key makes validation raise a key-lookup error instead of
returning `False` (an unconditional read).  But the read only happens for
candidates that survive checks 1-3: this candidate has an invalid status and
no `dispatcherId`, and validation returns `False` without raising. -/
theorem c10_counterexample :
    getAttr badStatusNoDisp.attributes "dispatcherId" = none ∧
    validate_assignments refsDomains noFile [badStatusNoDisp] = Except.ok false :=
  ⟨rfl, rfl⟩

/-- Claim C10 (amended): `validate_assignments` reads
`attributes["dispatcherId"]` without a presence guard for every candidate
that passes checks 1-3, and `attributes["workerId"]` for every candidate
with a non-empty worker username that passes checks 1-4, so such a candidate
missing the key makes validation raise `KeyError` instead of returning
`False`; the function is total (never raises) when every candidate carries
the unguarded keys, as candidates do after dispatcher defaulting and worker
resolution. -/
theorem c10_validate_partiality :
    validate_assignments refsDomains noFile [noDispatcherCandidate] =
      Except.error (PyError.keyError "dispatcherId") ∧
    validate_assignments refsDomains noFile [noWorkerIdCandidate] =
      Except.error (PyError.keyError "workerId") ∧
    ∀ (refs : Refs) (fe : String → Bool) (l : List Assignment),
      (∀ a ∈ l, keyCompleteB a = true) →
      ∃ b, validate_assignments refs fe l = Except.ok b := by
  refine ⟨rfl, rfl, ?_⟩
  intro refs fe l h
  exact ⟨l.all (specPasses refs fe), validate_eq_allSpec refs fe l h⟩

/-- Claim C3: when a due-date column mapping is supplied, for every row whose
due-date value parses (via `dp`, standing for `strptime` at the configured
format) to a date-time `d`: if the parsed time-of-day is exactly 00:00:00 the
stored `dueDate` is 23:59:59 of the same calendar date converted to UTC and
formatted as MM/DD/YYYY HH:MM:SS, otherwise the parsed time is stored
unchanged after UTC conversion and the same formatting. -/
theorem c3_dueDate_midnight_rule (cfg : ParserConfig) (dp : String → Option DateTime)
    (row : Row) (s : String) (d : DateTime) (a : Assignment)
    (hfield : strOptTruthy cfg.dueDateField = true)
    (hcol : getCol row (cfg.dueDateField.getD "") = Except.ok s)
    (hparse : dp s = some d)
    (hrow : parseRow cfg dp row = Except.ok a) :
    (d.hour = 0 ∧ d.minute = 0 ∧ d.second = 0 →
      getAttr a.attributes "dueDate" = some (AttrValue.str (formatDateTime (toUTC
        { year := d.year, month := d.month, day := d.day,
          hour := 23, minute := 59, second := 59 } cfg.tzOffsetMinutes)))) ∧
    (¬(d.hour = 0 ∧ d.minute = 0 ∧ d.second = 0) →
      getAttr a.attributes "dueDate" =
        some (AttrValue.str (formatDateTime (toUTC d cfg.tzOffsetMinutes)))) := by
  rcases parseRow_ok_elim cfg dp row a hrow with
    ⟨xs, x, ys, y, ts, ty, loc, o1, o2, o3, o4, o5, wu, af,
     h1, h2, h3, h4, h5, h6, h7, ho1, ho2, ho3, ho4, ho5, hwv, hav, rfl⟩
  have ho5v : optDueAttr cfg.dueDateField cfg.tzOffsetMinutes dp row =
      Except.ok (some ("dueDate", AttrValue.str (dueDateString d cfg.tzOffsetMinutes))) := by
    unfold optDueAttr
    rw [if_pos hfield, hcol, ok_bind, hparse]
    rfl
  have ho5e : o5 = some ("dueDate", AttrValue.str (dueDateString d cfg.tzOffsetMinutes)) := by
    rw [ho5] at ho5v
    exact Except.ok.inj ho5v
  subst ho5e
  have hfront : getAttr (List.filterMap id [o1, o2, o3, o4]) "dueDate" = none := by
    apply getAttr_eq_none_of_keys
    intro p hp
    rcases List.mem_filterMap.1 hp with ⟨o, ho, hid⟩
    have hop : o = some p := hid
    subst hop
    have hmem : some p = o1 ∨ some p = o2 ∨ some p = o3 ∨ some p = o4 := by
      simpa using ho
    rcases hmem with h | h | h | h
    · rcases optIntAttr_ok_shape _ _ _ _ ho1 with hn | ⟨v, hv⟩
      · rw [hn] at h; cases h
      · rw [hv] at h
        cases h
        exact (by decide : ("dispatcherId" : String) ≠ "dueDate")
    · rcases optStrAttr_ok_shape _ _ _ _ ho2 with hn | ⟨v, hv⟩
      · rw [hn] at h; cases h
      · rw [hv] at h
        cases h
        exact (by decide : ("description" : String) ≠ "dueDate")
    · rcases optIntAttr_ok_shape _ _ _ _ ho3 with hn | ⟨v, hv⟩
      · rw [hn] at h; cases h
      · rw [hv] at h
        cases h
        exact (by decide : ("priority" : String) ≠ "dueDate")
    · rcases optStrAttr_ok_shape _ _ _ _ ho4 with hn | ⟨v, hv⟩
      · rw [hn] at h; cases h
      · rw [hv] at h
        cases h
        exact (by decide : ("workOrderId" : String) ≠ "dueDate")
  have hcons : ([o1, o2, o3, o4,
      some ("dueDate", AttrValue.str (dueDateString d cfg.tzOffsetMinutes))] :
        List (Option (String × AttrValue))) =
      [o1, o2, o3, o4] ++
        [some ("dueDate", AttrValue.str (dueDateString d cfg.tzOffsetMinutes))] := rfl
  have hbase : getAttr (baseAttrs ty loc) "dueDate" = none := rfl
  have hmain : getAttr (baseAttrs ty loc ++ List.filterMap id [o1, o2, o3, o4,
      some ("dueDate", AttrValue.str (dueDateString d cfg.tzOffsetMinutes))]) "dueDate" =
      some (AttrValue.str (dueDateString d cfg.tzOffsetMinutes)) := by
    rw [hcons, List.filterMap_append, getAttr_append_none _ _ _ hbase,
        getAttr_append_none _ _ _ hfront]
    rfl
  constructor
  · intro h0
    rw [hmain]
    unfold dueDateString
    rw [if_pos ⟨h0.2.2, h0.1, h0.2.1⟩]
  · intro h0
    rw [hmain]
    unfold dueDateString
    rw [if_neg (fun hc => h0 ⟨hc.2.1, hc.2.2, hc.1⟩)]

/-- Claim C3 witness: the spec's own example; parsing the bare-date row
`"01/15/2024 00:00:00"` at UTC stores `"01/15/2024 23:59:59"`. -/
theorem c3_witness :
    strOptTruthy cfgDue.dueDateField = true ∧
    getCol rowDue (cfgDue.dueDateField.getD "") = Except.ok "01/15/2024 00:00:00" ∧
    parseDateUS "01/15/2024 00:00:00" = some ⟨2024, 1, 15, 0, 0, 0⟩ ∧
    parseRow cfgDue parseDateUS rowDue = Except.ok dueSample ∧
    getAttr dueSample.attributes "dueDate" = some (AttrValue.str "01/15/2024 23:59:59") := by
  refine ⟨rfl, rfl, rfl, rfl, ?_⟩
  have h := (c3_dueDate_midnight_rule cfgDue parseDateUS rowDue "01/15/2024 00:00:00"
    ⟨2024, 1, 15, 0, 0, 0⟩ dueSample rfl rfl rfl rfl).1 ⟨rfl, rfl, rfl⟩
  rw [h]
  rfl

/-- Claim C6: a row parsed with no optional column mappings supplied produces
a record whose attributes are exactly the four keys `assignmentType`,
`location`, `status = 0` and `assignmentRead = null`, in that order, and
nothing else — optional fields whose mapping is absent are omitted entirely,
not set to null. -/
theorem c6_no_optional_mappings_round_trip (cfg : ParserConfig)
    (dp : String → Option DateTime) (row : Row)
    (xs ys ts loc : String) (x y : PyFloat) (ty : Int)
    (hnd : strOptTruthy cfg.dispatcherIdField = false)
    (hne : strOptTruthy cfg.descriptionField = false)
    (hnp : strOptTruthy cfg.priorityField = false)
    (hnw : strOptTruthy cfg.workOrderIdField = false)
    (hndd : strOptTruthy cfg.dueDateField = false)
    (hnwk : strOptTruthy cfg.workerField = false)
    (hnaf : strOptTruthy cfg.attachmentFileField = false)
    (hx : getCol row cfg.xField = Except.ok xs) (hxv : pyParseFloat xs = some x)
    (hy : getCol row cfg.yField = Except.ok ys) (hyv : pyParseFloat ys = some y)
    (ht : getCol row cfg.assignmentTypeField = Except.ok ts) (htv : pyParseInt ts = some ty)
    (hl : getCol row cfg.locationField = Except.ok loc) :
    parseRow cfg dp row = Except.ok
      { geometry := { x := x, y := y, wkid := cfg.wkid },
        attributes := [("assignmentType", AttrValue.int ty),
                       ("location", AttrValue.str loc),
                       ("status", AttrValue.int 0), ("assignmentRead", AttrValue.null)],
        workerUsername := none, attachmentFile := none } := by
  have hfx : floatE xs = Except.ok x := (floatE_ok xs x).2 hxv
  have hfy : floatE ys = Except.ok y := (floatE_ok ys y).2 hyv
  have hit : intE ts = Except.ok ty := (intE_ok ts ty).2 htv
  have ho1 : optIntAttr cfg.dispatcherIdField "dispatcherId" row = Except.ok none := by
    unfold optIntAttr; simp [hnd, pure_eq_ok]
  have ho2 : optStrAttr cfg.descriptionField "description" row = Except.ok none := by
    unfold optStrAttr; simp [hne, pure_eq_ok]
  have ho3 : optIntAttr cfg.priorityField "priority" row = Except.ok none := by
    unfold optIntAttr; simp [hnp, pure_eq_ok]
  have ho4 : optStrAttr cfg.workOrderIdField "workOrderId" row = Except.ok none := by
    unfold optStrAttr; simp [hnw, pure_eq_ok]
  have ho5 : optDueAttr cfg.dueDateField cfg.tzOffsetMinutes dp row = Except.ok none := by
    unfold optDueAttr; simp [hndd, pure_eq_ok]
  have hwv : optCol cfg.workerField row = Except.ok none := by
    unfold optCol; simp [hnwk, pure_eq_ok]
  have hav : optCol cfg.attachmentFileField row = Except.ok none := by
    unfold optCol; simp [hnaf, pure_eq_ok]
  unfold parseRow
  rw [hx, ok_bind, hfx, ok_bind, hy, ok_bind, hfy, ok_bind, ht, ok_bind, hit, ok_bind,
      hl, ok_bind, ho1, ok_bind, ho2, ok_bind, ho3, ok_bind, ho4, ok_bind, ho5, ok_bind,
      hwv, ok_bind, hav, ok_bind, pure_eq_ok]
  rfl

/-- Claim C6 witness: a concrete row under a configuration with no optional
mappings yields exactly the four base attributes. -/
theorem c6_witness :
    strOptTruthy cfgBasic.dispatcherIdField = false ∧
    pyParseFloat "1.5" = some ⟨false, 15, 1⟩ ∧
    parseRow cfgBasic parseDateUS rowXY = Except.ok
      { geometry := { x := ⟨false, 15, 1⟩, y := ⟨false, 225, 2⟩, wkid := 4326 },
        attributes := [("assignmentType", AttrValue.int 1), ("location", AttrValue.str "A"),
                       ("status", AttrValue.int 0), ("assignmentRead", AttrValue.null)],
        workerUsername := none, attachmentFile := none } :=
  ⟨rfl, rfl,
   c6_no_optional_mappings_round_trip cfgBasic parseDateUS rowXY "1.5" "2.25" "1" "A"
     ⟨false, 15, 1⟩ ⟨false, 225, 2⟩ 1
     rfl rfl rfl rfl rfl rfl rfl rfl rfl rfl rfl rfl rfl rfl⟩

/-- Claim C7 counterexample: the claim says a non-numeric x or y value fails
with a ParseError naming the offending row and column.  The raised
`ValueError` carries only the offending literal: the error produced by a bad
x value in row 0 of one input is identical to the error produced by a bad y
value in row 1 of another input, so the error cannot name the row or the
column. -/
theorem c7_counterexample :
    parseRows cfgBasic parseDateUS [rowBadX] = Except.error (PyError.valueError "abc") ∧
    parseRows cfgBasic parseDateUS [rowXY, rowBadY] =
      Except.error (PyError.valueError "abc") :=
  ⟨rfl, rfl⟩

/-- Claim C7 (amended): a row whose x column value is not a valid
floating-point numeral fails with the `ValueError` naming that offending
value (and likewise for y, checked after x); the uncaught error identifies
neither row nor column.  For rows where both parse, the stored geometry x and
y equal the parsed float values of the CSV strings exactly. -/
theorem c7_xy_parse_exact (cfg : ParserConfig) (dp : String → Option DateTime)
    (row : Row) (xs ys : String)
    (hx : getCol row cfg.xField = Except.ok xs)
    (hy : getCol row cfg.yField = Except.ok ys) :
    (pyParseFloat xs = none → parseRow cfg dp row = Except.error (PyError.valueError xs)) ∧
    (∀ xv, pyParseFloat xs = some xv → pyParseFloat ys = none →
       parseRow cfg dp row = Except.error (PyError.valueError ys)) ∧
    (∀ a, parseRow cfg dp row = Except.ok a →
       pyParseFloat xs = some a.geometry.x ∧ pyParseFloat ys = some a.geometry.y) := by
  refine ⟨?_, ?_, ?_⟩
  · intro hbad
    have hfx : floatE xs = Except.error (PyError.valueError xs) := by
      unfold floatE; rw [hbad]
    unfold parseRow
    rw [hx, ok_bind, hfx, error_bind]
  · intro xv hxv hbad
    have hfx : floatE xs = Except.ok xv := (floatE_ok xs xv).2 hxv
    have hfy : floatE ys = Except.error (PyError.valueError ys) := by
      unfold floatE; rw [hbad]
    unfold parseRow
    rw [hx, ok_bind, hfx, ok_bind, hy, ok_bind, hfy, error_bind]
  · intro a hrow
    rcases parseRow_ok_elim cfg dp row a hrow with
      ⟨xs2, x, ys2, y, ts, ty, loc, o1, o2, o3, o4, o5, wu, af,
       h1, h2, h3, h4, h5, h6, h7, ho1, ho2, ho3, ho4, ho5, hwv, hav, rfl⟩
    have hxs : xs2 = xs := by
      rw [hx] at h1
      exact (Except.ok.inj h1).symm
    have hys : ys2 = ys := by
      rw [hy] at h3
      exact (Except.ok.inj h3).symm
    rw [hxs] at h2
    rw [hys] at h4
    exact ⟨(floatE_ok xs x).1 h2, (floatE_ok ys y).1 h4⟩

/-- Claim C7 witness: the amended theorem applied to a concrete row with a
good x and a non-numeric y. -/
theorem c7_witness :
    getCol rowBadY cfgBasic.xField = Except.ok "1.0" ∧
    getCol rowBadY cfgBasic.yField = Except.ok "abc" ∧
    pyParseFloat "1.0" = some ⟨false, 10, 1⟩ ∧
    pyParseFloat "abc" = none ∧
    parseRow cfgBasic parseDateUS rowBadY = Except.error (PyError.valueError "abc") :=
  ⟨rfl, rfl, rfl, rfl,
   (c7_xy_parse_exact cfgBasic parseDateUS rowBadY "1.0" "abc" rfl rfl).2.1
     ⟨false, 10, 1⟩ rfl rfl⟩

/-- Claim C10 witness: the totality part applied to a concrete key-complete
batch. -/
theorem c10_witness :
    (∀ a ∈ [validCandidate, carolCompleteCandidate], keyCompleteB a = true) ∧
    ∃ b, validate_assignments refsDomains noFile [validCandidate, carolCompleteCandidate] =
      Except.ok b :=
  ⟨by decide,
   c10_validate_partiality.2.2 refsDomains noFile [validCandidate, carolCompleteCandidate]
     (by decide)⟩

/-- Claim C4: if any parsed candidate carries a non-empty worker username
that the worker collection cannot resolve, the run ends in the worker-abort
outcome and the bulk insert is never reached, so no record (including the
other, resolvable candidates) is submitted. -/
theorem c4_unresolved_worker_aborts_run (env : Env) (username : String)
    (parsed : List Assignment) (did : Int) (a : Assignment)
    (hd : env.dispatcherLookup username = some did)
    (ha : a ∈ parsed) (ht : strOptTruthy a.workerUsername = true)
    (hw : env.workerLookup (a.workerUsername.getD "") = none) :
    (∃ u, runMain env username parsed = MainResult.workerNotFound u) ∧
    submittedBatch (runMain env username parsed) = none := by
  rcases runMain_workerNotFound_of_lookup_none env username parsed did a hd ha ht hw
    with ⟨u, hu⟩
  refine ⟨⟨u, hu⟩, ?_⟩
  rw [hu]
  rfl

/-- Claim C4 witness: a two-candidate batch in which the first candidate is
fully valid and the second names the unknown worker `bob`; the whole run
aborts with no submitted batch. -/
theorem c4_witness :
    envNoWorker.dispatcherLookup "boss" = some 7 ∧
    strOptTruthy bobCandidate.workerUsername = true ∧
    envNoWorker.workerLookup (bobCandidate.workerUsername.getD "") = none ∧
    ((∃ u, runMain envNoWorker "boss" [plainCandidate, bobCandidate] =
        MainResult.workerNotFound u) ∧
     submittedBatch (runMain envNoWorker "boss" [plainCandidate, bobCandidate]) = none) :=
  ⟨rfl, rfl, rfl,
   c4_unresolved_worker_aborts_run envNoWorker "boss" [plainCandidate, bobCandidate] 7
     bobCandidate rfl (List.mem_cons_of_mem _ (List.mem_cons_self _ _)) rfl rfl⟩

/-- Claim C5: in a completed run over parser-produced candidates, every
submitted candidate has status 0 with neither `workerId` nor `assignedDate`
when its worker username is absent or empty, and status 1 with `workerId`
equal to the resolved identifier and `assignedDate` stamped with the current
UTC time string when a non-empty worker username was supplied (resolution
necessarily succeeded, or the run would have aborted). -/
theorem c5_status_invariant (env : Env) (username : String) (cfg : ParserConfig)
    (dp : String → Option DateTime) (rows : List Row)
    (parsed sub fin : List Assignment)
    (hp : parseRows cfg dp rows = Except.ok parsed)
    (hr : runMain env username parsed = MainResult.completed sub fin) :
    ∀ c ∈ sub,
      (strOptTruthy c.workerUsername = false →
         getAttr c.attributes "status" = some (AttrValue.int 0) ∧
         getAttr c.attributes "workerId" = none ∧
         getAttr c.attributes "assignedDate" = none) ∧
      (strOptTruthy c.workerUsername = true →
         getAttr c.attributes "status" = some (AttrValue.int 1) ∧
         getAttr c.attributes "workerId" =
           (env.workerLookup (c.workerUsername.getD "")).map AttrValue.int ∧
         getAttr c.attributes "assignedDate" = some (AttrValue.str env.now)) := by
  intro c hc
  rcases runMain_completed_elim env username parsed sub fin hr with ⟨did, hdl, hm, hoi⟩
  rcases mapME_ok_mem _ _ _ hm c hc with ⟨a1, ha1, hres⟩
  rcases List.mem_map.1 ha1 with ⟨a0, ha0, rfl⟩
  rcases mapME_ok_mem _ _ _ hp a0 ha0 with ⟨row, hrowmem, hparse⟩
  have hfresh := parseRow_attrs_fresh cfg dp row a0 hparse
  have hstat1 : getAttr (defaultDispatcher did a0).attributes "status" =
      some (AttrValue.int 0) := by
    rw [defaultDispatcher_attr_other did a0 "status" (by decide)]
    exact hfresh.1
  have hwid1 : getAttr (defaultDispatcher did a0).attributes "workerId" = none := by
    rw [defaultDispatcher_attr_other did a0 "workerId" (by decide)]
    exact hfresh.2.1
  have hdate1 : getAttr (defaultDispatcher did a0).attributes "assignedDate" = none := by
    rw [defaultDispatcher_attr_other did a0 "assignedDate" (by decide)]
    exact hfresh.2.2
  rcases resolveWorker_ok_elim _ _ _ _ hres with ⟨hwf, rfl⟩ | ⟨hwt, wid, hwl, rfl⟩
  · constructor
    · intro _
      exact ⟨hstat1, hwid1, hdate1⟩
    · intro hcontra
      rw [hcontra] at hwf
      cases hwf
  · constructor
    · intro hcontra
      rw [workerEnrich_workerUsername] at hcontra
      rw [hcontra] at hwt
      cases hwt
    · intro _
      refine ⟨workerEnrich_status _ _ _, ?_, workerEnrich_assignedDate _ _ _⟩
      rw [workerEnrich_workerId, workerEnrich_workerUsername, hwl]
      rfl

/-- Claim C5 witness: a concrete completed run over two rows, one naming the
resolvable worker `alice`, one with an empty worker value; the first submitted
candidate is assigned (status 1, workerId, assignedDate), the second stays
unassigned. -/
theorem c5_witness :
    parseRows cfgWorker parseDateUS [rowAlice, rowEmptyWorker] = Except.ok parsedPair ∧
    runMain envRun "boss" parsedPair = MainResult.completed subPair finPair ∧
    (getAttr aliceEnriched.attributes "status" = some (AttrValue.int 1) ∧
     getAttr aliceEnriched.attributes "workerId" =
       (envRun.workerLookup (aliceEnriched.workerUsername.getD "")).map AttrValue.int ∧
     getAttr aliceEnriched.attributes "assignedDate" = some (AttrValue.str envRun.now)) ∧
    (getAttr emptyWorkerEnriched.attributes "status" = some (AttrValue.int 0) ∧
     getAttr emptyWorkerEnriched.attributes "workerId" = none ∧
     getAttr emptyWorkerEnriched.attributes "assignedDate" = none) := by
  refine ⟨rfl, rfl, ?_, ?_⟩
  · exact ((c5_status_invariant envRun "boss" cfgWorker parseDateUS
      [rowAlice, rowEmptyWorker] parsedPair subPair finPair rfl rfl)
      aliceEnriched (List.mem_cons_self _ _)).2 rfl
  · exact ((c5_status_invariant envRun "boss" cfgWorker parseDateUS
      [rowAlice, rowEmptyWorker] parsedPair subPair finPair rfl rfl)
      emptyWorkerEnriched (List.mem_cons_of_mem _ (List.mem_cons_self _ _))).1 rfl

/-- Claim C8: after the dispatcher-defaulting step every candidate has a
`dispatcherId` — a candidate that lacked one gets the acting user's resolved
dispatcher identifier, a candidate whose `dispatcherId` came from the CSV
keeps its value — and the step modifies nothing else: every other attribute,
the geometry, the worker username and the attachment path are unchanged. -/
theorem c8_dispatcher_default_frame (did : Int) (a : Assignment) :
    getAttr (defaultDispatcher did a).attributes "dispatcherId" ≠ none ∧
    (getAttr a.attributes "dispatcherId" = none →
       getAttr (defaultDispatcher did a).attributes "dispatcherId" =
         some (AttrValue.int did)) ∧
    (∀ v, getAttr a.attributes "dispatcherId" = some v →
       getAttr (defaultDispatcher did a).attributes "dispatcherId" = some v) ∧
    (∀ k, k ≠ "dispatcherId" →
       getAttr (defaultDispatcher did a).attributes k = getAttr a.attributes k) ∧
    (defaultDispatcher did a).geometry = a.geometry ∧
    (defaultDispatcher did a).workerUsername = a.workerUsername ∧
    (defaultDispatcher did a).attachmentFile = a.attachmentFile := by
  refine ⟨defaultDispatcher_has_id did a, defaultDispatcher_set did a, ?_,
          fun k hk => defaultDispatcher_attr_other did a k hk,
          (defaultDispatcher_fields did a).1, (defaultDispatcher_fields did a).2.1,
          (defaultDispatcher_fields did a).2.2⟩
  intro v hv
  rw [defaultDispatcher_of_some did a v hv]
  exact hv

/-- Claim C8 witness: the frame theorem applied to a concrete candidate with
no CSV dispatcher id. -/
theorem c8_witness :
    getAttr plainCandidate.attributes "dispatcherId" = none ∧
    getAttr (defaultDispatcher 7 plainCandidate).attributes "dispatcherId" =
      some (AttrValue.int 7) ∧
    getAttr (defaultDispatcher 7 plainCandidate).attributes "location" =
      getAttr plainCandidate.attributes "location" :=
  ⟨rfl, (c8_dispatcher_default_frame 7 plainCandidate).2.1 rfl,
   (c8_dispatcher_default_frame 7 plainCandidate).2.2.2.1 "location" (by decide)⟩

/-- Claim C9: when the bulk-insert response carries as many entries as the
batch has candidates, the object-id write-back succeeds, preserves the batch
length, and pairs the candidates with the response entries in input order:
every candidate's stored OBJECTID is the identifier at the same index of the
response. -/
theorem c9_objectids_in_order (l : List Assignment) (ids : List Int)
    (h : ids.length = l.length) :
    ∃ r, assignObjectIds l ids = Except.ok r ∧ r.length = l.length ∧
      ∀ p ∈ r.zip ids, getAttr p.1.attributes "OBJECTID" = some (AttrValue.int p.2) := by
  induction l generalizing ids with
  | nil =>
    cases ids with
    | nil =>
      refine ⟨[], rfl, rfl, ?_⟩
      intro p hp
      cases hp
    | cons i ids2 => simp at h
  | cons a l ih =>
    cases ids with
    | nil => simp at h
    | cons i ids2 =>
      have h2 : ids2.length = l.length := by simpa using h
      rcases ih ids2 h2 with ⟨r, hr, hlen, hall⟩
      refine ⟨{ a with attributes := setAttr a.attributes "OBJECTID" (AttrValue.int i) } :: r,
        ?_, ?_, ?_⟩
      · unfold assignObjectIds
        rw [hr]
      · simp [hlen]
      · intro p hp
        rw [List.zip_cons_cons] at hp
        rcases List.mem_cons.1 hp with hp | hp
        · subst hp
          exact getAttr_setAttr_same _ _ _
        · exact hall p hp

/-- Claim C9 witness: the write-back theorem applied to a concrete
two-candidate batch and a two-entry response. -/
theorem c9_witness :
    ([41, 42] : List Int).length = [plainCandidate, bobCandidate].length ∧
    ∃ r, assignObjectIds [plainCandidate, bobCandidate] [41, 42] = Except.ok r ∧
      r.length = [plainCandidate, bobCandidate].length ∧
      ∀ p ∈ r.zip [41, 42], getAttr p.1.attributes "OBJECTID" = some (AttrValue.int p.2) :=
  ⟨rfl, c9_objectids_in_order [plainCandidate, bobCandidate] [41, 42] rfl⟩

end WorkforceCSV
